import Mathlib

/-!
Verification of the TiKV region request sender (`store/tikv/region_request.go`).

This file gives a shallow embedding of the retry / error-classification state
machine implemented by `RegionRequestSender` and proves properties of it.

The sender's three collaborators (region cache, backoffer, transport client)
are external to the file under verification; they are modelled as explicit
state inside a `World` record:

* the region cache is an association list from `RegionVerID` to `Region`;
* the backoffer keeps one remaining-budget counter per backoff type and a
  cancellation flag `ctxErr` (the `bo.ctx` of the Go code: `none` means the
  context is live, `some e` means `ctx.Done()` has fired and `ctx.Err() = e`);
* the transport client is a finite script of outcomes, consumed one per call
  (an exhausted script behaves as a transport error);
* every collaborator call is additionally logged in a ghost `events` trace so
  that theorems can speak about which calls occurred.

The Go `for` loop is embedded as a step function (`sendKVStep`, `sendCopStep`)
iterated with fuel (`SendKVReq`, `SendCopReq`); termination for sufficient fuel
is proved, so the fuel is not a semantic restriction.
-/

namespace RegionRequest

/-- `RegionVerID` identifies a region at a specific epoch (id, confVer, ver). -/
structure RegionVerID where
  id : Nat
  confVer : Nat
  ver : Nat
  deriving DecidableEq, Repr

/-- A cached region snapshot: its identity, the selected peer's address, the
routing context stamped into requests, and the known leader. -/
structure Region where
  verId : RegionVerID
  addr : Nat
  ctx : Nat
  leader : Nat
  deriving DecidableEq, Repr

/-- The `NotLeader` region error payload: the server's belief about the
current leader peer id, if any (`GetLeader()` may be nil). -/
structure NotLeaderErr where
  leader : Option Nat
  deriving DecidableEq, Repr

/-- The `StaleEpoch` region error payload: successor regions after split or
merge (`NewRegions`, possibly empty). -/
structure StaleEpochErr where
  newRegions : List Region
  deriving DecidableEq, Repr

/-- `errorpb.Error` as inspected by the sender: nullable `NotLeader` and
`StaleEpoch` fields and a `ServerIsBusy` flag; an error with none of these
set is the catch-all "other" case. -/
structure RegionError where
  notLeader : Option NotLeaderErr
  staleEpoch : Option StaleEpochErr
  serverIsBusy : Bool
  deriving DecidableEq, Repr

/-- A KV request: its command type tag and its routing-context field, which
the sender overwrites before each dispatch (`req.Context = region.GetContext()`). -/
structure KvRequest where
  tp : Nat
  context : Option Nat
  deriving DecidableEq, Repr

/-- A KV response: its command type tag and its optional region error. -/
structure KvResponse where
  tp : Nat
  regionError : Option RegionError
  deriving DecidableEq, Repr

/-- A coprocessor request: payload tag and routing-context field. -/
structure CopRequest where
  tp : Nat
  context : Option Nat
  deriving DecidableEq, Repr

/-- A coprocessor response: payload and optional region error; unlike
`kvrpcpb.Response` it carries no command type tag. -/
structure CopResponse where
  data : Nat
  regionError : Option RegionError
  deriving DecidableEq, Repr

/-- The named backoff budgets used by the sender. -/
inductive BoType
  | boTiKVRPC
  | boRegionMiss
  | boServerBusy
  deriving DecidableEq, Repr

/-- Error values the sender can produce or propagate. `errors.Trace` of the
Go code preserves the underlying error, so it is modelled as the identity. -/
inductive GoError
  | ctxCanceled
  | backoffExhausted (tp : BoType)
  | transport (n : Nat)
  | mismatch (respTp reqTp : Nat)
  | staleUpdateFailed (n : Nat)
  deriving DecidableEq, Repr

/-- Ghost trace of collaborator calls made by the sender. `evBackoff` is
logged only for a successful charge; `evSendKV` / `evSendCop` record the
exact request value handed to the transport. -/
inductive Event
  | evLookup (id : RegionVerID) (found : Bool)
  | evNextPeer (id : RegionVerID)
  | evUpdateLeader (id : RegionVerID) (leader : Nat)
  | evDropRegion (id : RegionVerID)
  | evRegionStale (id : RegionVerID) (n : Nat)
  | evBackoff (tp : BoType)
  | evReport
  | evSendKV (addr : Nat) (req : KvRequest)
  | evSendCop (addr : Nat) (req : CopRequest)
  deriving DecidableEq, Repr

/-- One scripted outcome of a KV transport call. -/
inductive KvCallOut
  | ok (resp : KvResponse)
  | err (e : GoError)
  deriving DecidableEq, Repr

/-- One scripted outcome of a coprocessor transport call. -/
inductive CopCallOut
  | ok (resp : CopResponse)
  | err (e : GoError)
  deriving DecidableEq, Repr

/-- The collaborators' state as seen by one sender call. -/
structure World where
  cache : List (RegionVerID × Region)
  ctxErr : Option GoError
  boRPC : Nat
  boMiss : Nat
  boBusy : Nat
  kvScript : List KvCallOut
  copScript : List CopCallOut
  staleErr : Option GoError
  events : List Event
  deriving DecidableEq, Repr

/-- Append a ghost event. -/
def logEv (w : World) (ev : Event) : World :=
  { w with events := w.events ++ [ev] }

/-- Association-list lookup used by the cache. -/
def cacheFind : List (RegionVerID × Region) → RegionVerID → Option Region
  | [], _ => none
  | (k, r) :: rest, id => if k = id then some r else cacheFind rest id

/-- `RegionCache.GetRegionByVerID`: look the identity up in the cache. -/
def GetRegionByVerID (w : World) (id : RegionVerID) : Option Region × World :=
  let r := cacheFind w.cache id
  (r, logEv w (.evLookup id r.isSome))

/-- `RegionCache.NextPeer`: advance the region's peer selection (modelled as
moving to the next address). -/
def NextPeer (w : World) (id : RegionVerID) : World :=
  { w with
    cache := w.cache.map fun p =>
      if p.1 = id then (p.1, { p.2 with addr := p.2.addr + 1 }) else p,
    events := w.events ++ [.evNextPeer id] }

/-- `RegionCache.UpdateLeader`: record the reported leader for the region. -/
def UpdateLeader (w : World) (id : RegionVerID) (leader : Nat) : World :=
  { w with
    cache := w.cache.map fun p =>
      if p.1 = id then (p.1, { p.2 with leader := leader }) else p,
    events := w.events ++ [.evUpdateLeader id leader] }

/-- `RegionCache.DropRegion`: evict the region from the cache. -/
def DropRegion (w : World) (id : RegionVerID) : World :=
  { w with
    cache := w.cache.filter fun p => decide (p.1 ≠ id),
    events := w.events ++ [.evDropRegion id] }

/-- The cache contents after `OnRegionStale` replaces a region by its
successor regions. -/
def staleCacheUpdate (cache : List (RegionVerID × Region)) (id : RegionVerID)
    (newRegions : List Region) : List (RegionVerID × Region) :=
  (cache.filter fun p => decide (p.1 ≠ id)) ++ newRegions.map fun r => (r.verId, r)

/-- `RegionCache.OnRegionStale`: replace the stale region by the
server-supplied successors; its internals are external, so a possible
failure is scripted in `w.staleErr`. -/
def OnRegionStale (w : World) (region : Region) (newRegions : List Region) :
    Option GoError × World :=
  match w.staleErr with
  | some e => (some e, logEv w (.evRegionStale region.verId newRegions.length))
  | none =>
    (none,
      { w with
        cache := staleCacheUpdate w.cache region.verId newRegions,
        events := w.events ++ [.evRegionStale region.verId newRegions.length] })

/-- `Backoffer.Backoff`: fail when the context is cancelled or when the named
budget is exhausted; otherwise charge one unit of that budget. -/
def Backoff (w : World) (tp : BoType) : Option GoError × World :=
  match w.ctxErr with
  | some e => (some e, w)
  | none =>
    match tp with
    | .boTiKVRPC =>
      if w.boRPC = 0 then (some (.backoffExhausted tp), w)
      else (none, { w with boRPC := w.boRPC - 1, events := w.events ++ [.evBackoff tp] })
    | .boRegionMiss =>
      if w.boMiss = 0 then (some (.backoffExhausted tp), w)
      else (none, { w with boMiss := w.boMiss - 1, events := w.events ++ [.evBackoff tp] })
    | .boServerBusy =>
      if w.boBusy = 0 then (some (.backoffExhausted tp), w)
      else (none, { w with boBusy := w.boBusy - 1, events := w.events ++ [.evBackoff tp] })

/-- `Client.SendKVReq`: pop the next scripted outcome (an exhausted script is
a transport error). -/
def clientSendKV (w : World) (addr : Nat) (req : KvRequest) : KvCallOut × World :=
  match w.kvScript with
  | [] => (.err (.transport 0), logEv w (.evSendKV addr req))
  | c :: rest =>
    (c, { w with kvScript := rest, events := w.events ++ [.evSendKV addr req] })

/-- `Client.SendCopReq`: pop the next scripted outcome. -/
def clientSendCop (w : World) (addr : Nat) (req : CopRequest) : CopCallOut × World :=
  match w.copScript with
  | [] => (.err (.transport 0), logEv w (.evSendCop addr req))
  | c :: rest =>
    (c, { w with copScript := rest, events := w.events ++ [.evSendCop addr req] })

/-- `reportRegionError`: the metric observation, control-flow neutral. -/
def reportRegionError (w : World) : World := logEv w .evReport

/-- `onSendFail`: advance to the next peer, then charge the RPC-error backoff
budget; the backoff outcome is the returned error. -/
def onSendFail (w : World) (id : RegionVerID) : Option GoError × World :=
  Backoff (NextPeer w id) .boTiKVRPC

/-- `notLeader.GetLeader().GetId()`: the protobuf getter of a nil leader
yields the zero id. -/
def getLeaderId : Option Nat → Nat
  | some l => l
  | none => 0

/-- Outcome of one `send*ReqToRegion` helper: a response, a retry signal, or
a fatal error — the three reachable states of the Go `(resp, retry, err)`. -/
inductive ToRegionResult (ρ : Type)
  | ok (resp : ρ)
  | retry
  | fail (e : GoError)
  deriving DecidableEq, Repr

/-- `sendKVReqToRegion`: stamp the routing context, call the transport; on a
transport error run `onSendFail` and either retry or propagate the backoff
failure. -/
def sendKVReqToRegion (w : World) (region : Region) (req : KvRequest) :
    ToRegionResult KvResponse × KvRequest × World :=
  let req := { req with context := some region.ctx }
  match clientSendKV w region.addr req with
  | (.err _, w) =>
    match onSendFail w region.verId with
    | (some e2, w) => (.fail e2, req, w)
    | (none, w) => (.retry, req, w)
  | (.ok resp, w) => (.ok resp, req, w)

/-- `sendCopReqToRegion`: as `sendKVReqToRegion`, but the source returns
`errors.Trace(err)` — the original transport error — when `onSendFail`
fails, instead of the backoff failure `e`. -/
def sendCopReqToRegion (w : World) (region : Region) (req : CopRequest) :
    ToRegionResult CopResponse × CopRequest × World :=
  let req := { req with context := some region.ctx }
  match clientSendCop w region.addr req with
  | (.err e, w) =>
    match onSendFail w region.verId with
    | (some _, w) => (.fail e, req, w)
    | (none, w) => (.retry, req, w)
  | (.ok resp, w) => (.ok resp, req, w)

/-- `onRegionError`: classify the region error. `NotLeader` updates the
leader (charging the region-miss budget when no leader was reported),
`StaleEpoch` replaces the cache entry and does not retry, `ServerIsBusy`
charges the busy budget, and anything else drops the region and falls
through to `return true, nil`. -/
def onRegionError (w : World) (region : Region) (regionErr : RegionError) :
    (Bool × Option GoError) × World :=
  let w := reportRegionError w
  match regionErr.notLeader with
  | some notLeader =>
    let w := UpdateLeader w region.verId (getLeaderId notLeader.leader)
    match notLeader.leader with
    | none =>
      match Backoff w .boRegionMiss with
      | (some e, w) => ((false, some e), w)
      | (none, w) => ((true, none), w)
    | some _ => ((true, none), w)
  | none =>
    match regionErr.staleEpoch with
    | some staleEpoch =>
      let p := OnRegionStale w region staleEpoch.newRegions
      ((false, p.1), p.2)
    | none =>
      if regionErr.serverIsBusy then
        match Backoff w .boServerBusy with
        | (some e, w) => ((false, some e), w)
        | (none, w) => ((true, none), w)
      else
        ((true, none), DropRegion w region.verId)

/-- The region error synthesized when the cache does not know the identity:
`StaleEpoch` with no successor regions. -/
def staleEpochRegionError : RegionError :=
  { notLeader := none, staleEpoch := some { newRegions := [] }, serverIsBusy := false }

/-- Outcome of one iteration of the retry loop: return `(resp, err)` to the
caller, or go around the loop again with the (context-stamped) request. -/
inductive StepOut (ρ α : Type)
  | done (resp : Option ρ) (err : Option GoError)
  | again (req : α)
  deriving DecidableEq, Repr

/-- One iteration of the `SendKVReq` loop body. -/
def sendKVStep (req : KvRequest) (regionID : RegionVerID) (w : World) :
    StepOut KvResponse KvRequest × World :=
  match w.ctxErr with
  | some e => (.done none (some e), w)
  | none =>
    match GetRegionByVerID w regionID with
    | (none, w) =>
      (.done (some { tp := req.tp, regionError := some staleEpochRegionError }) none, w)
    | (some region, w) =>
      match sendKVReqToRegion w region req with
      | (.fail e, _, w) => (.done none (some e), w)
      | (.retry, req, w) => (.again req, w)
      | (.ok resp, req, w) =>
        match resp.regionError with
        | some regionErr =>
          match onRegionError w region regionErr with
          | ((_, some e), w) => (.done none (some e), w)
          | ((true, none), w) => (.again req, w)
          | ((false, none), w) =>
            if resp.tp ≠ req.tp then (.done none (some (.mismatch resp.tp req.tp)), w)
            else (.done (some resp) none, w)
        | none =>
          if resp.tp ≠ req.tp then (.done none (some (.mismatch resp.tp req.tp)), w)
          else (.done (some resp) none, w)

/-- `SendKVReq`: iterate the loop body; `none` means the fuel ran out before
the loop returned (ruled out below for sufficient fuel). -/
def SendKVReq : Nat → KvRequest → RegionVerID → World →
    Option ((Option KvResponse × Option GoError) × World)
  | 0, _, _, _ => none
  | fuel + 1, req, regionID, w =>
    match sendKVStep req regionID w with
    | (.done resp err, w) => some ((resp, err), w)
    | (.again req, w) => SendKVReq fuel req regionID w

/-- One iteration of the `SendCopReq` loop body: no cancellation check at the
top and no response-type check at the bottom. -/
def sendCopStep (req : CopRequest) (regionID : RegionVerID) (w : World) :
    StepOut CopResponse CopRequest × World :=
  match GetRegionByVerID w regionID with
  | (none, w) =>
    (.done (some { data := 0, regionError := some staleEpochRegionError }) none, w)
  | (some region, w) =>
    match sendCopReqToRegion w region req with
    | (.fail e, _, w) => (.done none (some e), w)
    | (.retry, req, w) => (.again req, w)
    | (.ok resp, req, w) =>
      match resp.regionError with
      | some regionErr =>
        match onRegionError w region regionErr with
        | ((_, some e), w) => (.done none (some e), w)
        | ((true, none), w) => (.again req, w)
        | ((false, none), w) => (.done (some resp) none, w)
      | none => (.done (some resp) none, w)

/-- `SendCopReq`: iterate the coprocessor loop body with fuel. -/
def SendCopReq : Nat → CopRequest → RegionVerID → World →
    Option ((Option CopResponse × Option GoError) × World)
  | 0, _, _, _ => none
  | fuel + 1, req, regionID, w =>
    match sendCopStep req regionID w with
    | (.done resp err, w) => some ((resp, err), w)
    | (.again req, w) => SendCopReq fuel req regionID w

/-! ## Concrete fixtures used to exercise the sender -/

/-- A concrete region-version identity. -/
def rid0 : RegionVerID := { id := 1, confVer := 2, ver := 3 }

/-- A concrete cached region for `rid0`. -/
def region0 : Region := { verId := rid0, addr := 10, ctx := 100, leader := 1 }

/-- A baseline world: `rid0` cached, live context, all budgets at 5, empty
transport scripts. -/
def baseWorld : World :=
  { cache := [(rid0, region0)], ctxErr := none, boRPC := 5, boMiss := 5, boBusy := 5,
    kvScript := [], copScript := [], staleErr := none, events := [] }

/-- A region error with none of the three known variants set: the "other"
catch-all case. -/
def otherRegionError : RegionError :=
  { notLeader := none, staleEpoch := none, serverIsBusy := false }

/-- A concrete KV request. -/
def kvReq0 : KvRequest := { tp := 5, context := none }

/-- A concrete coprocessor request. -/
def copReq0 : CopRequest := { tp := 7, context := none }

/-- World whose single KV transport call yields an other-variant region error. -/
def otherErrWorld : World :=
  { baseWorld with kvScript := [.ok { tp := 5, regionError := some otherRegionError }] }

/-- World with a cancelled context whose single cop transport call succeeds. -/
def cancelledCopWorld : World :=
  { baseWorld with ctxErr := some .ctxCanceled,
                   copScript := [.ok { data := 42, regionError := none }] }

/-- World with a cancelled context (KV side). -/
def cancelledKvWorld : World := { baseWorld with ctxErr := some .ctxCanceled }

/-- World with an exhausted RPC backoff budget and a failing cop transport. -/
def rpcExhaustedCopWorld : World :=
  { baseWorld with boRPC := 0, copScript := [.err (.transport 7)] }

/-- World with an exhausted RPC backoff budget and a failing KV transport. -/
def rpcExhaustedKvWorld : World :=
  { baseWorld with boRPC := 0, kvScript := [.err (.transport 7)] }

/-- World whose cache does not know `rid0`. -/
def emptyCacheWorld : World := { baseWorld with cache := [] }

/-- World whose single KV transport call succeeds with no region error. -/
def cleanSuccessWorld : World :=
  { baseWorld with kvScript := [.ok { tp := 5, regionError := none }] }

/-- A Not-Leader region error with a reported leader peer 2. -/
def notLeaderWithLeader : RegionError :=
  { notLeader := some { leader := some 2 }, staleEpoch := none, serverIsBusy := false }

/-- A Not-Leader region error with no reported leader. -/
def notLeaderNoLeader : RegionError :=
  { notLeader := some { leader := none }, staleEpoch := none, serverIsBusy := false }

/-- World delivering a Not-Leader (no leader) response with an exhausted
region-miss budget. -/
def noLeaderExhaustedWorld : World :=
  { baseWorld with boMiss := 0,
                   kvScript := [.ok { tp := 5, regionError := some notLeaderNoLeader }] }

/-- A Stale-Epoch region error carrying an empty successor list. -/
def staleEmptySuccessors : RegionError :=
  { notLeader := none, staleEpoch := some { newRegions := [] }, serverIsBusy := false }

/-- World delivering a KV Stale-Epoch response with an empty successor list. -/
def staleKvWorld : World :=
  { baseWorld with kvScript := [.ok { tp := 5, regionError := some staleEmptySuccessors }] }

/-- World delivering a cop Stale-Epoch response with an empty successor list. -/
def staleCopWorld : World :=
  { baseWorld with copScript := [.ok { data := 9, regionError := some staleEmptySuccessors }] }

/-- World where the stale-cache replacement itself fails. -/
def staleFailWorld : World :=
  { staleKvWorld with staleErr := some (.staleUpdateFailed 3) }

/-- World whose single KV transport call succeeds with a mismatched type tag. -/
def mismatchWorld : World :=
  { baseWorld with kvScript := [.ok { tp := 6, regionError := none }] }

/-- World whose single KV transport call fails, leading to one retry. -/
def kvRetryWorld : World := { baseWorld with kvScript := [.err (.transport 1)] }

/-- World whose single cop transport call fails, leading to one retry. -/
def copRetryWorld : World := { baseWorld with copScript := [.err (.transport 1)] }

/-- The world after one retrying KV iteration on `kvRetryWorld`. -/
def kvRetryStepWorld : World :=
  { cache := [(rid0, { verId := rid0, addr := 11, ctx := 100, leader := 1 })],
    ctxErr := none, boRPC := 4, boMiss := 5, boBusy := 5,
    kvScript := [], copScript := [], staleErr := none,
    events := [.evLookup rid0 true, .evSendKV 10 { tp := 5, context := some 100 },
               .evNextPeer rid0, .evBackoff .boTiKVRPC] }

/-- The world after one retrying cop iteration on `copRetryWorld`. -/
def copRetryStepWorld : World :=
  { cache := [(rid0, { verId := rid0, addr := 11, ctx := 100, leader := 1 })],
    ctxErr := none, boRPC := 4, boMiss := 5, boBusy := 5,
    kvScript := [], copScript := [], staleErr := none,
    events := [.evLookup rid0 true, .evSendCop 10 { tp := 7, context := some 100 },
               .evNextPeer rid0, .evBackoff .boTiKVRPC] }

/-- Events that witness a cache mutation or a successful backoff charge. -/
def isRecoveryEvent : Event → Bool
  | .evNextPeer _ => true
  | .evUpdateLeader _ _ => true
  | .evDropRegion _ => true
  | .evRegionStale _ _ => true
  | .evBackoff _ => true
  | _ => false

/-- Outcome predicate: the call returned (the fuel did not run out) and
exactly one of the response / error slots is filled. -/
def oneOutcome {ρ : Type} : Option ((Option ρ × Option GoError) × World) → Prop
  | some ((r, e), _) => r.isSome ↔ e = none
  | none => False

/-! ## Helper lemmas about the collaborators and the loop body -/

lemma sendKVReqToRegion_req (w : World) (region : Region) (req : KvRequest) :
    (sendKVReqToRegion w region req).2.1 = { req with context := some region.ctx } := by
  simp only [sendKVReqToRegion]
  split
  · split <;> rfl
  · rfl

lemma clientSendKV_inv (w : World) (a : Nat) (r : KvRequest) (out : KvCallOut)
    (w' : World) (h : clientSendKV w a r = (out, w')) :
    w'.kvScript.length ≤ w.kvScript.length ∧ w'.copScript = w.copScript ∧
    w'.boRPC = w.boRPC ∧ w'.ctxErr = w.ctxErr ∧ w'.staleErr = w.staleErr ∧
    w'.cache = w.cache ∧ w'.boMiss = w.boMiss ∧ w'.boBusy = w.boBusy ∧
    w'.events = w.events ++ [.evSendKV a r] ∧
    (∀ resp, out = .ok resp → w'.kvScript.length < w.kvScript.length) := by
  simp only [clientSendKV] at h
  split at h <;> simp only [Prod.mk.injEq] at h <;> obtain ⟨rfl, rfl⟩ := h <;>
    simp_all [logEv]

lemma clientSendCop_inv (w : World) (a : Nat) (r : CopRequest) (out : CopCallOut)
    (w' : World) (h : clientSendCop w a r = (out, w')) :
    w'.copScript.length ≤ w.copScript.length ∧ w'.kvScript = w.kvScript ∧
    w'.boRPC = w.boRPC ∧ w'.ctxErr = w.ctxErr ∧ w'.staleErr = w.staleErr ∧
    w'.cache = w.cache ∧ w'.boMiss = w.boMiss ∧ w'.boBusy = w.boBusy ∧
    w'.events = w.events ++ [.evSendCop a r] ∧
    (∀ resp, out = .ok resp → w'.copScript.length < w.copScript.length) := by
  simp only [clientSendCop] at h
  split at h <;> simp only [Prod.mk.injEq] at h <;> obtain ⟨rfl, rfl⟩ := h <;>
    simp_all [logEv]

lemma onSendFail_inv (w : World) (id : RegionVerID) (res : Option GoError)
    (w' : World) (h : onSendFail w id = (res, w')) :
    w'.kvScript = w.kvScript ∧ w'.copScript = w.copScript ∧
    w'.boRPC ≤ w.boRPC ∧ w'.ctxErr = w.ctxErr ∧ w'.staleErr = w.staleErr ∧
    w'.boMiss = w.boMiss ∧ w'.boBusy = w.boBusy ∧
    (res = none →
      w'.boRPC < w.boRPC ∧
      w'.events = w.events ++ [.evNextPeer id, .evBackoff .boTiKVRPC]) := by
  simp only [onSendFail, Backoff, NextPeer] at h
  split at h
  · simp only [Prod.mk.injEq] at h
    obtain ⟨rfl, rfl⟩ := h
    simp_all
  · split at h <;> simp only [Prod.mk.injEq] at h <;>
      obtain ⟨rfl, rfl⟩ := h <;> simp_all <;> omega

lemma sendKVReqToRegion_retry_inv (w : World) (region : Region) (req : KvRequest)
    (req' : KvRequest) (w' : World)
    (h : sendKVReqToRegion w region req = (.retry, req', w')) :
    w'.kvScript.length + w'.boRPC < w.kvScript.length + w.boRPC ∧
    w'.copScript = w.copScript ∧ w'.ctxErr = w.ctxErr ∧
    ∃ l, w'.events = w.events ++ l ∧ l.any isRecoveryEvent = true := by
  simp only [sendKVReqToRegion] at h
  split at h
  case _ e wc heqC =>
    split at h
    case _ e2 wb heqB => simp at h
    case _ wb heqB =>
      simp only [Prod.mk.injEq] at h
      obtain ⟨-, rfl, rfl⟩ := h
      obtain ⟨h1, h2, h3, h4, h5, h6, h7, h8, h9, _⟩ := clientSendKV_inv _ _ _ _ _ heqC
      obtain ⟨g1, g2, g3, g4, g5, g6, g7, g8⟩ := onSendFail_inv _ _ _ _ heqB
      obtain ⟨g9, g10⟩ := g8 rfl
      have hlen : wb.kvScript.length = wc.kvScript.length := by rw [g1]
      refine ⟨by omega, by rw [g2, h2], by rw [g4, h4], ?_⟩
      exact ⟨[.evSendKV region.addr { req with context := some region.ctx },
              .evNextPeer region.verId, .evBackoff .boTiKVRPC],
        by rw [g10, h9]; simp, by simp [isRecoveryEvent]⟩
  case _ resp wc heqC => simp at h

lemma sendKVReqToRegion_ok_inv (w : World) (region : Region) (req : KvRequest)
    (resp : KvResponse) (req' : KvRequest) (w' : World)
    (h : sendKVReqToRegion w region req = (.ok resp, req', w')) :
    w'.kvScript.length < w.kvScript.length ∧ w'.boRPC = w.boRPC ∧
    w'.copScript = w.copScript ∧ w'.ctxErr = w.ctxErr ∧ w'.staleErr = w.staleErr ∧
    w'.boMiss = w.boMiss ∧ w'.boBusy = w.boBusy ∧ w'.cache = w.cache ∧
    w'.events = w.events ++
      [.evSendKV region.addr { req with context := some region.ctx }] := by
  simp only [sendKVReqToRegion] at h
  split at h
  case _ e wc heqC =>
    split at h <;> simp at h
  case _ r wc heqC =>
    simp only [Prod.mk.injEq, ToRegionResult.ok.injEq] at h
    obtain ⟨rfl, rfl, rfl⟩ := h
    obtain ⟨h1, h2, h3, h4, h5, h6, h7, h8, h9, h10⟩ := clientSendKV_inv _ _ _ _ _ heqC
    exact ⟨h10 _ rfl, h3, h2, h4, h5, h7, h8, h6, h9⟩


lemma sendCopReqToRegion_retry_inv (w : World) (region : Region) (req : CopRequest)
    (req' : CopRequest) (w' : World)
    (h : sendCopReqToRegion w region req = (.retry, req', w')) :
    w'.copScript.length + w'.boRPC < w.copScript.length + w.boRPC ∧
    w'.kvScript = w.kvScript ∧ w'.ctxErr = w.ctxErr ∧
    ∃ l, w'.events = w.events ++ l ∧ l.any isRecoveryEvent = true := by
  simp only [sendCopReqToRegion] at h
  split at h
  case _ e wc heqC =>
    split at h
    case _ e2 wb heqB => simp at h
    case _ wb heqB =>
      simp only [Prod.mk.injEq] at h
      obtain ⟨-, rfl, rfl⟩ := h
      obtain ⟨h1, h2, h3, h4, h5, h6, h7, h8, h9, -⟩ := clientSendCop_inv _ _ _ _ _ heqC
      obtain ⟨g1, g2, g3, g4, g5, g6, g7, g8⟩ := onSendFail_inv _ _ _ _ heqB
      obtain ⟨g9, g10⟩ := g8 rfl
      have hlen : wb.copScript.length = wc.copScript.length := by rw [g2]
      refine ⟨by omega, by rw [g1, h2], by rw [g4, h4], ?_⟩
      exact ⟨[.evSendCop region.addr { req with context := some region.ctx },
              .evNextPeer region.verId, .evBackoff .boTiKVRPC],
        by rw [g10, h9]; simp, by simp [isRecoveryEvent]⟩
  case _ resp wc heqC => simp at h

lemma sendCopReqToRegion_ok_inv (w : World) (region : Region) (req : CopRequest)
    (resp : CopResponse) (req' : CopRequest) (w' : World)
    (h : sendCopReqToRegion w region req = (.ok resp, req', w')) :
    w'.copScript.length < w.copScript.length ∧ w'.boRPC = w.boRPC ∧
    w'.kvScript = w.kvScript ∧ w'.ctxErr = w.ctxErr ∧ w'.staleErr = w.staleErr ∧
    w'.boMiss = w.boMiss ∧ w'.boBusy = w.boBusy ∧ w'.cache = w.cache ∧
    w'.events = w.events ++
      [.evSendCop region.addr { req with context := some region.ctx }] := by
  simp only [sendCopReqToRegion] at h
  split at h
  case _ e wc heqC =>
    split at h <;> simp at h
  case _ r wc heqC =>
    simp only [Prod.mk.injEq, ToRegionResult.ok.injEq] at h
    obtain ⟨rfl, rfl, rfl⟩ := h
    obtain ⟨h1, h2, h3, h4, h5, h6, h7, h8, h9, h10⟩ := clientSendCop_inv _ _ _ _ _ heqC
    exact ⟨h10 _ rfl, h3, h2, h4, h5, h7, h8, h6, h9⟩

lemma Backoff_inv (w : World) (tp : BoType) (res : Option GoError) (w' : World)
    (h : Backoff w tp = (res, w')) :
    w'.kvScript = w.kvScript ∧ w'.copScript = w.copScript ∧ w'.ctxErr = w.ctxErr ∧
    w'.cache = w.cache ∧ w'.staleErr = w.staleErr ∧
    (tp = .boRegionMiss → w'.boRPC = w.boRPC) ∧
    (tp = .boServerBusy → w'.boRPC = w.boRPC) ∧
    (res = none → w'.events = w.events ++ [.evBackoff tp]) := by
  simp only [Backoff] at h
  repeat' split at h
  all_goals simp only [Prod.mk.injEq] at h
  all_goals obtain ⟨rfl, rfl⟩ := h
  all_goals simp_all

lemma OnRegionStale_proj (w : World) (region : Region) (nr : List Region) :
    (OnRegionStale w region nr).2.kvScript = w.kvScript ∧
    (OnRegionStale w region nr).2.copScript = w.copScript ∧
    (OnRegionStale w region nr).2.boRPC = w.boRPC ∧
    (OnRegionStale w region nr).2.ctxErr = w.ctxErr := by
  simp only [OnRegionStale]
  split <;> simp [logEv]

lemma onRegionError_inv (w : World) (region : Region) (re : RegionError)
    (b : Bool) (e : Option GoError) (w' : World)
    (h : onRegionError w region re = ((b, e), w')) :
    w'.kvScript = w.kvScript ∧ w'.copScript = w.copScript ∧ w'.boRPC = w.boRPC ∧
    w'.ctxErr = w.ctxErr ∧
    (b = true → ∃ l, w'.events = w.events ++ l ∧ l.any isRecoveryEvent = true) := by
  simp only [onRegionError, reportRegionError] at h
  split at h
  case _ nl hnl =>
    split at h
    case _ hleader =>
      split at h
      case _ e2 wB heqB =>
        simp only [Prod.mk.injEq] at h
        obtain ⟨⟨rfl, rfl⟩, rfl⟩ := h
        obtain ⟨b1, b2, b3, b4, b5, b6, b7, b8⟩ := Backoff_inv _ _ _ _ heqB
        have hrpc := b6 rfl
        simp only [UpdateLeader, logEv] at b1 b2 b3 hrpc
        exact ⟨b1, b2, hrpc, b3, fun hb => absurd hb (by simp)⟩
      case _ wB heqB =>
        simp only [Prod.mk.injEq] at h
        obtain ⟨⟨rfl, rfl⟩, rfl⟩ := h
        obtain ⟨b1, b2, b3, b4, b5, b6, b7, b8⟩ := Backoff_inv _ _ _ _ heqB
        have hrpc := b6 rfl
        have hev := b8 rfl
        simp only [UpdateLeader, logEv] at b1 b2 b3 hrpc hev
        refine ⟨b1, b2, hrpc, b3, fun _ => ?_⟩
        refine ⟨[.evReport, .evUpdateLeader region.verId (getLeaderId nl.leader),
                 .evBackoff .boRegionMiss], ?_, by simp [isRecoveryEvent]⟩
        rw [hev]; simp
    case _ l0 hleader =>
      simp only [Prod.mk.injEq] at h
      obtain ⟨⟨rfl, rfl⟩, rfl⟩ := h
      refine ⟨by simp [UpdateLeader, logEv], by simp [UpdateLeader, logEv],
        by simp [UpdateLeader, logEv], by simp [UpdateLeader, logEv], fun _ => ?_⟩
      refine ⟨[.evReport, .evUpdateLeader region.verId (getLeaderId nl.leader)],
        ?_, by simp [isRecoveryEvent]⟩
      simp [UpdateLeader, logEv]
  case _ hnl =>
    split at h
    case _ se hse =>
      simp only [Prod.mk.injEq] at h
      obtain ⟨⟨rfl, rfl⟩, rfl⟩ := h
      obtain ⟨s1, s2, s3, s4⟩ := OnRegionStale_proj (logEv w .evReport) region se.newRegions
      simp only [logEv] at s1 s2 s3 s4
      exact ⟨by simpa using s1, by simpa using s2, by simpa using s3, by simpa using s4,
        fun hb => absurd hb (by simp)⟩
    case _ hse =>
      split at h
      · split at h
        case _ e2 wB heqB =>
          simp only [Prod.mk.injEq] at h
          obtain ⟨⟨rfl, rfl⟩, rfl⟩ := h
          obtain ⟨b1, b2, b3, b4, b5, b6, b7, b8⟩ := Backoff_inv _ _ _ _ heqB
          have hrpc := b7 rfl
          simp only [logEv] at b1 b2 b3 hrpc
          exact ⟨b1, b2, hrpc, b3, fun hb => absurd hb (by simp)⟩
        case _ wB heqB =>
          simp only [Prod.mk.injEq] at h
          obtain ⟨⟨rfl, rfl⟩, rfl⟩ := h
          obtain ⟨b1, b2, b3, b4, b5, b6, b7, b8⟩ := Backoff_inv _ _ _ _ heqB
          have hrpc := b7 rfl
          have hev := b8 rfl
          simp only [logEv] at b1 b2 b3 hrpc hev
          refine ⟨b1, b2, hrpc, b3, fun _ => ?_⟩
          refine ⟨[.evReport, .evBackoff .boServerBusy], ?_, by simp [isRecoveryEvent]⟩
          rw [hev]; simp
      · simp only [Prod.mk.injEq] at h
        obtain ⟨⟨rfl, rfl⟩, rfl⟩ := h
        refine ⟨by simp [DropRegion, logEv], by simp [DropRegion, logEv],
          by simp [DropRegion, logEv], by simp [DropRegion, logEv], fun _ => ?_⟩
        refine ⟨[.evReport, .evDropRegion region.verId], ?_, by simp [isRecoveryEvent]⟩
        simp [DropRegion, logEv]

lemma sendKVStep_again_inv (kreq : KvRequest) (id : RegionVerID) (w : World)
    (req' : KvRequest) (w' : World)
    (h : sendKVStep kreq id w = (.again req', w')) :
    w'.kvScript.length + w'.boRPC < w.kvScript.length + w.boRPC ∧
    ∃ l, w'.events = w.events ++ l ∧ l.any isRecoveryEvent = true := by
  simp only [sendKVStep, GetRegionByVerID] at h
  split at h
  · simp at h
  split at h
  · simp at h
  case _ region wl heqF =>
    simp only [Prod.mk.injEq] at heqF
    obtain ⟨hf, rfl⟩ := heqF
    split at h
    case _ e heqS => simp at h
    case _ reqX wX heqS =>
      simp only [Prod.mk.injEq, StepOut.again.injEq] at h
      obtain ⟨rfl, rfl⟩ := h
      obtain ⟨m1, -, -, hev⟩ := sendKVReqToRegion_retry_inv _ _ _ _ _ heqS
      obtain ⟨l, hl, hrec⟩ := hev
      refine ⟨by simpa [logEv] using m1,
        ⟨(Event.evLookup id ((cacheFind w.cache id).isSome)) :: l, ?_, by simp [hrec]⟩⟩
      rw [hl]; simp [logEv]
    case _ resp reqX wX heqS =>
      split at h
      case _ regionErr hre =>
        split at h
        case _ e2 heqO => simp at h
        case _ wY heqO =>
          simp only [Prod.mk.injEq, StepOut.again.injEq] at h
          obtain ⟨rfl, rfl⟩ := h
          obtain ⟨o1, o2, o3, o4, o5, o6, o7, o8, o9⟩ :=
            sendKVReqToRegion_ok_inv _ _ _ _ _ _ heqS
          obtain ⟨r1, r2, r3, r4, r5⟩ := onRegionError_inv _ _ _ _ _ _ heqO
          obtain ⟨l, hl, hrec⟩ := r5 rfl
          have hlen : wY.kvScript.length = wX.kvScript.length := by rw [r1]
          refine ⟨by simp [logEv] at o1 o2; omega,
            ⟨(Event.evLookup id ((cacheFind w.cache id).isSome)) ::
              (Event.evSendKV region.addr { kreq with context := some region.ctx }) :: l,
              ?_, by simp [hrec]⟩⟩
          rw [hl, o9]; simp [logEv]
        case _ heqO =>
          split at h <;> simp at h
      case _ hre =>
        split at h <;> simp at h

lemma sendKVStep_done_xor (kreq : KvRequest) (id : RegionVerID) (w : World)
    (r : Option KvResponse) (e : Option GoError) (w' : World)
    (h : sendKVStep kreq id w = (.done r e, w')) : r.isSome ↔ e = none := by
  simp only [sendKVStep, GetRegionByVerID] at h
  repeat' split at h
  all_goals simp only [Prod.mk.injEq, StepOut.done.injEq] at h
  all_goals obtain ⟨⟨rfl, rfl⟩, rfl⟩ := h
  all_goals simp

lemma sendCopStep_again_inv (creq : CopRequest) (id : RegionVerID) (w : World)
    (req' : CopRequest) (w' : World)
    (h : sendCopStep creq id w = (.again req', w')) :
    w'.copScript.length + w'.boRPC < w.copScript.length + w.boRPC ∧
    ∃ l, w'.events = w.events ++ l ∧ l.any isRecoveryEvent = true := by
  simp only [sendCopStep, GetRegionByVerID] at h
  split at h
  · simp at h
  case _ region wl heqF =>
    simp only [Prod.mk.injEq] at heqF
    obtain ⟨hf, rfl⟩ := heqF
    split at h
    case _ e heqS => simp at h
    case _ reqX wX heqS =>
      simp only [Prod.mk.injEq, StepOut.again.injEq] at h
      obtain ⟨rfl, rfl⟩ := h
      obtain ⟨m1, -, -, hev⟩ := sendCopReqToRegion_retry_inv _ _ _ _ _ heqS
      obtain ⟨l, hl, hrec⟩ := hev
      refine ⟨by simpa [logEv] using m1,
        ⟨(Event.evLookup id ((cacheFind w.cache id).isSome)) :: l, ?_, by simp [hrec]⟩⟩
      rw [hl]; simp [logEv]
    case _ resp reqX wX heqS =>
      split at h
      case _ regionErr hre =>
        split at h
        case _ e2 heqO => simp at h
        case _ wY heqO =>
          simp only [Prod.mk.injEq, StepOut.again.injEq] at h
          obtain ⟨rfl, rfl⟩ := h
          obtain ⟨o1, o2, o3, o4, o5, o6, o7, o8, o9⟩ :=
            sendCopReqToRegion_ok_inv _ _ _ _ _ _ heqS
          obtain ⟨r1, r2, r3, r4, r5⟩ := onRegionError_inv _ _ _ _ _ _ heqO
          obtain ⟨l, hl, hrec⟩ := r5 rfl
          have hlen : wY.copScript.length = wX.copScript.length := by rw [r2]
          refine ⟨by simp [logEv] at o1 o2; omega,
            ⟨(Event.evLookup id ((cacheFind w.cache id).isSome)) ::
              (Event.evSendCop region.addr { creq with context := some region.ctx }) :: l,
              ?_, by simp [hrec]⟩⟩
          rw [hl, o9]; simp [logEv]
        case _ heqO => simp at h
      case _ hre => simp at h

lemma sendCopStep_done_xor (creq : CopRequest) (id : RegionVerID) (w : World)
    (r : Option CopResponse) (e : Option GoError) (w' : World)
    (h : sendCopStep creq id w = (.done r e, w')) : r.isSome ↔ e = none := by
  simp only [sendCopStep, GetRegionByVerID] at h
  repeat' split at h
  all_goals simp only [Prod.mk.injEq, StepOut.done.injEq] at h
  all_goals obtain ⟨⟨rfl, rfl⟩, rfl⟩ := h
  all_goals simp

lemma sendKVReq_total (fuel : Nat) : ∀ (kreq : KvRequest) (id : RegionVerID)
    (w : World), w.kvScript.length + w.boRPC < fuel →
    oneOutcome (SendKVReq fuel kreq id w) := by
  induction fuel with
  | zero => intro kreq id w h; omega
  | succ n ih =>
    intro kreq id w h
    rw [SendKVReq]
    rcases hstep : sendKVStep kreq id w with ⟨out, w1⟩
    cases out with
    | done r e =>
      simpa [oneOutcome] using sendKVStep_done_xor _ _ _ _ _ _ hstep
    | again req1 =>
      have hm := (sendKVStep_again_inv _ _ _ _ _ hstep).1
      exact ih req1 id w1 (by omega)

lemma sendCopReq_total (fuel : Nat) : ∀ (creq : CopRequest) (id : RegionVerID)
    (w : World), w.copScript.length + w.boRPC < fuel →
    oneOutcome (SendCopReq fuel creq id w) := by
  induction fuel with
  | zero => intro creq id w h; omega
  | succ n ih =>
    intro creq id w h
    rw [SendCopReq]
    rcases hstep : sendCopStep creq id w with ⟨out, w1⟩
    cases out with
    | done r e =>
      simpa [oneOutcome] using sendCopStep_done_xor _ _ _ _ _ _ hstep
    | again req1 =>
      have hm := (sendCopStep_again_inv _ _ _ _ _ hstep).1
      exact ih req1 id w1 (by omega)

lemma sendKVStep_done_some_tp (kreq : KvRequest) (id : RegionVerID) (w : World)
    (r : KvResponse) (e : Option GoError) (w' : World)
    (h : sendKVStep kreq id w = (.done (some r) e, w')) : r.tp = kreq.tp := by
  simp only [sendKVStep, GetRegionByVerID] at h
  split at h
  · simp at h
  split at h
  · simp only [Prod.mk.injEq, StepOut.done.injEq, Option.some.injEq] at h
    obtain ⟨⟨rfl, rfl⟩, rfl⟩ := h
    rfl
  case _ region wl heqF =>
    split at h
    case _ e2 heqS => simp at h
    case _ reqX wX heqS => simp at h
    case _ resp reqX wX heqS =>
      have hreq : reqX = { kreq with context := some region.ctx } := by
        have h2 := congrArg (fun t => t.2.1) heqS
        simpa [sendKVReqToRegion_req] using h2.symm
      split at h
      case _ regionErr hre =>
        split at h
        case _ e2 heqO => simp at h
        case _ wY heqO => simp at h
        case _ wY heqO =>
          split at h
          · simp at h
          case _ htp =>
            simp only [Prod.mk.injEq, StepOut.done.injEq, Option.some.injEq] at h
            obtain ⟨⟨rfl, rfl⟩, rfl⟩ := h
            have h3 : resp.tp = reqX.tp := not_not.mp htp
            rw [h3, hreq]
      case _ hre =>
        split at h
        · simp at h
        case _ htp =>
          simp only [Prod.mk.injEq, StepOut.done.injEq, Option.some.injEq] at h
          obtain ⟨⟨rfl, rfl⟩, rfl⟩ := h
          have h3 : resp.tp = reqX.tp := not_not.mp htp
          rw [h3, hreq]

lemma sendKVStep_again_tp (kreq : KvRequest) (id : RegionVerID) (w : World)
    (req' : KvRequest) (w' : World)
    (h : sendKVStep kreq id w = (.again req', w')) : req'.tp = kreq.tp := by
  simp only [sendKVStep, GetRegionByVerID] at h
  split at h
  · simp at h
  split at h
  · simp at h
  case _ region wl heqF =>
    split at h
    case _ e2 heqS => simp at h
    case _ reqX wX heqS =>
      have hreq : reqX = { kreq with context := some region.ctx } := by
        have h2 := congrArg (fun t => t.2.1) heqS
        simpa [sendKVReqToRegion_req] using h2.symm
      simp only [Prod.mk.injEq, StepOut.again.injEq] at h
      obtain ⟨rfl, rfl⟩ := h
      rw [hreq]
    case _ resp reqX wX heqS =>
      have hreq : reqX = { kreq with context := some region.ctx } := by
        have h2 := congrArg (fun t => t.2.1) heqS
        simpa [sendKVReqToRegion_req] using h2.symm
      split at h
      case _ regionErr hre =>
        split at h
        case _ e2 heqO => simp at h
        case _ wY heqO =>
          simp only [Prod.mk.injEq, StepOut.again.injEq] at h
          obtain ⟨rfl, rfl⟩ := h
          rw [hreq]
        case _ wY heqO =>
          split at h <;> simp at h
      case _ hre =>
        split at h <;> simp at h

lemma sendKVReq_tp (fuel : Nat) : ∀ (kreq : KvRequest) (id : RegionVerID)
    (w : World) (r : KvResponse) (e : Option GoError) (w2 : World),
    SendKVReq fuel kreq id w = some ((some r, e), w2) → r.tp = kreq.tp := by
  induction fuel with
  | zero => intro kreq id w r e w2 h; simp [SendKVReq] at h
  | succ n ih =>
    intro kreq id w r e w2 h
    rw [SendKVReq] at h
    rcases hstep : sendKVStep kreq id w with ⟨out, w1⟩
    rw [hstep] at h
    cases out with
    | done r0 e0 =>
      simp only [Option.some.injEq, Prod.mk.injEq] at h
      obtain ⟨⟨rfl, rfl⟩, rfl⟩ := h
      exact sendKVStep_done_some_tp _ _ _ _ _ _ hstep
    | again req1 =>
      have htp := sendKVStep_again_tp _ _ _ _ _ hstep
      rw [← htp]
      exact ih req1 id w1 r e w2 h

/-! ## Claims -/

/-- C1: the claim says an other-variant region error drops the cache entry,
charges no backoff, does not retry, and returns the response with its region
error unresolved. The code does drop the entry and charges no backoff, but
`onRegionError` falls through to `return true, nil`, so the sender retries;
the retry finds the dropped entry missing and returns a synthesized
Stale-Epoch response instead of the other-error response — contradicting the
no-retry part of the claim and the code's own comment that the caller may
need to re-split the request. -/
theorem C1_other_error_causes_retry :
    (onRegionError baseWorld region0 otherRegionError).1 = (true, none) ∧
    (SendKVReq 3 kvReq0 rid0 otherErrWorld).map Prod.fst
      = some (some { tp := 5, regionError := some staleEpochRegionError }, none) ∧
    staleEpochRegionError ≠ otherRegionError := by
  refine ⟨rfl, rfl, by decide⟩

/-- C2, counterexample: with the cancellation signal already fired before the
call, `SendCopReq` still performs the transport call and returns a success
response — it never checks `bo.ctx.Done()`, unlike `SendKVReq`. -/
theorem C2_counterexample :
    cancelledCopWorld.ctxErr = some .ctxCanceled ∧
    (SendCopReq 2 copReq0 rid0 cancelledCopWorld).map Prod.fst
      = some (some { data := 42, regionError := none }, none) := by
  exact ⟨rfl, rfl⟩

/-- C2, amended: only `SendKVReq` checks the cancellation signal at the top
of every loop iteration; whenever the signal has fired before an iteration
begins, `SendKVReq` returns the cancellation error (and hence never a
success response), while `SendCopReq` performs no such check. -/
theorem C2_kv_checks_cancellation (fuel : Nat) (req : KvRequest) (id : RegionVerID)
    (w : World) (e : GoError) (hf : 0 < fuel) (hctx : w.ctxErr = some e) :
    SendKVReq fuel req id w = some ((none, some e), w) := by
  cases fuel with
  | zero => exact absurd hf (by simp)
  | succ n => simp [SendKVReq, sendKVStep, hctx]

/-- C2, witness: the amended theorem at a concrete cancelled world. -/
theorem C2_kv_checks_cancellation_witness :
    SendKVReq 2 kvReq0 rid0 cancelledKvWorld
      = some ((none, some .ctxCanceled), cancelledKvWorld) :=
  C2_kv_checks_cancellation 2 kvReq0 rid0 cancelledKvWorld .ctxCanceled (by decide) rfl

/-- C3: when the transport call fails and the subsequent RPC-error backoff
charge also fails, `SendKVReq` returns the backoff failure, but `SendCopReq`
returns the original transport error: `sendCopReqToRegion` wraps `err`
instead of the backoff failure `e`. The code contradicts the claim (and its
own KV path) at this input. -/
theorem C3_cop_returns_transport_error_not_backoff_failure :
    (SendCopReq 2 copReq0 rid0 rpcExhaustedCopWorld).map Prod.fst
      = some (none, some (.transport 7)) ∧
    (SendKVReq 2 kvReq0 rid0 rpcExhaustedKvWorld).map Prod.fst
      = some (none, some (.backoffExhausted .boTiKVRPC)) ∧
    GoError.transport 7 ≠ GoError.backoffExhausted .boTiKVRPC := by
  refine ⟨rfl, rfl, by decide⟩

/-- C4, counterexample: the sender can return a Response that still carries
an unresolved Region Error together with a nil error: the cache-miss path
returns a synthesized Stale-Epoch response, falsifying "exactly one final
Response with no unresolved Region Error". -/
theorem C4_counterexample :
    (SendKVReq 1 kvReq0 rid0 emptyCacheWorld).map Prod.fst
      = some (some { tp := 5, regionError := some staleEpochRegionError }, none) ∧
    ({ tp := 5, regionError := some staleEpochRegionError } : KvResponse).regionError
      ≠ none := by
  refine ⟨rfl, by decide⟩

/-- C5: for every identity the cache cannot resolve, both senders return
immediately — the only collaborator call is the failed lookup, nothing else
in the world changes — with no error and a synthesized Response whose region
error is Stale-Epoch with an empty successor list. -/
theorem C5_unknown_region_short_circuit (fuel : Nat) (kreq : KvRequest)
    (creq : CopRequest) (id : RegionVerID) (w : World) (hf : 0 < fuel)
    (hctx : w.ctxErr = none) (hfind : cacheFind w.cache id = none) :
    SendKVReq fuel kreq id w
      = some ((some { tp := kreq.tp, regionError := some staleEpochRegionError }, none),
          logEv w (.evLookup id false)) ∧
    SendCopReq fuel creq id w
      = some ((some { data := 0, regionError := some staleEpochRegionError }, none),
          logEv w (.evLookup id false)) ∧
    staleEpochRegionError.staleEpoch = some { newRegions := [] } := by
  cases fuel with
  | zero => exact absurd hf (by simp)
  | succ n =>
    refine ⟨?_, ?_, rfl⟩
    · simp [SendKVReq, sendKVStep, GetRegionByVerID, hctx, hfind]
    · simp [SendCopReq, sendCopStep, GetRegionByVerID, hfind]

/-- C5, witness: both senders at a concrete world with an empty cache. -/
theorem C5_unknown_region_short_circuit_witness :
    SendKVReq 1 kvReq0 rid0 emptyCacheWorld
      = some ((some { tp := 5, regionError := some staleEpochRegionError }, none),
          logEv emptyCacheWorld (.evLookup rid0 false)) ∧
    SendCopReq 1 copReq0 rid0 emptyCacheWorld
      = some ((some { data := 0, regionError := some staleEpochRegionError }, none),
          logEv emptyCacheWorld (.evLookup rid0 false)) := by
  have h := C5_unknown_region_short_circuit 1 kvReq0 copReq0 rid0 emptyCacheWorld
    (by decide) rfl rfl
  exact ⟨h.1, h.2.1⟩

/-- C6: on a Not-Leader region error with a reported leader, the sender
performs exactly one leader-update call on the cache and signals a retry,
charging no backoff budget; with no reported leader it additionally charges
exactly one unit of the region-miss budget before the retry; and if that
charge fails (budget exhausted), the backoff failure is the sender's final
error. -/
theorem C6_not_leader_handling :
    (∀ (w : World) (region : Region) (regionErr : RegionError) (l : Nat),
      regionErr.notLeader = some { leader := some l } →
      onRegionError w region regionErr
        = ((true, none), UpdateLeader (reportRegionError w) region.verId l)) ∧
    (∀ (w : World) (region : Region) (regionErr : RegionError) (k : Nat),
      regionErr.notLeader = some { leader := none } → w.ctxErr = none →
      w.boMiss = k + 1 →
      onRegionError w region regionErr
        = ((true, none),
           { UpdateLeader (reportRegionError w) region.verId 0 with
             boMiss := k,
             events := (UpdateLeader (reportRegionError w) region.verId 0).events
               ++ [.evBackoff .boRegionMiss] })) ∧
    (∀ (fuel : Nat) (kreq : KvRequest) (id : RegionVerID) (w : World)
      (region : Region) (resp : KvResponse) (rest : List KvCallOut)
      (regionErr : RegionError),
      w.ctxErr = none → cacheFind w.cache id = some region →
      w.kvScript = .ok resp :: rest → resp.regionError = some regionErr →
      regionErr.notLeader = some { leader := none } → w.boMiss = 0 →
      (SendKVReq (fuel + 1) kreq id w).map Prod.fst
        = some (none, some (.backoffExhausted .boRegionMiss))) := by
  refine ⟨?_, ?_, ?_⟩
  · intro w region regionErr l h
    simp [onRegionError, h, getLeaderId]
  · intro w region regionErr k h hctx hbo
    simp [onRegionError, h, getLeaderId, Backoff, UpdateLeader, reportRegionError,
      logEv, hctx, hbo]
  · intro fuel kreq id w region resp rest regionErr hctx hfind hscript hre hnl hbo
    simp [SendKVReq, sendKVStep, GetRegionByVerID, sendKVReqToRegion, clientSendKV,
      onRegionError, reportRegionError, UpdateLeader, Backoff, logEv,
      hctx, hfind, hscript, hre, hnl, hbo, getLeaderId]

/-- C6, witness: the three Not-Leader behaviours at concrete inputs. -/
theorem C6_not_leader_handling_witness :
    onRegionError baseWorld region0 notLeaderWithLeader
      = ((true, none), UpdateLeader (reportRegionError baseWorld) region0.verId 2) ∧
    onRegionError baseWorld region0 notLeaderNoLeader
      = ((true, none),
         { UpdateLeader (reportRegionError baseWorld) region0.verId 0 with
           boMiss := 4,
           events := (UpdateLeader (reportRegionError baseWorld) region0.verId 0).events
             ++ [.evBackoff .boRegionMiss] }) ∧
    (SendKVReq 1 kvReq0 rid0 noLeaderExhaustedWorld).map Prod.fst
      = some (none, some (.backoffExhausted .boRegionMiss)) :=
  ⟨C6_not_leader_handling.1 baseWorld region0 notLeaderWithLeader 2 rfl,
   C6_not_leader_handling.2.1 baseWorld region0 notLeaderNoLeader 4 rfl rfl rfl,
   C6_not_leader_handling.2.2 0 kvReq0 rid0 noLeaderExhaustedWorld region0
     { tp := 5, regionError := some notLeaderNoLeader } [] notLeaderNoLeader
     rfl rfl rfl rfl rfl rfl⟩

/-- C7: on a Stale-Epoch region error the sender replaces the cache entry
with the server-supplied successor regions (`staleCacheUpdate`, which may
insert zero regions), does not retry (one loop iteration suffices), and
returns the Response with the Stale-Epoch error still attached — for both
request kinds; and if the cache replacement fails, that failure is the
sender's final error. -/
theorem C7_stale_epoch_handling :
    (∀ (kreq : KvRequest) (id : RegionVerID) (w : World) (region : Region)
      (resp : KvResponse) (rest : List KvCallOut) (regionErr : RegionError)
      (se : StaleEpochErr),
      w.ctxErr = none → cacheFind w.cache id = some region →
      w.kvScript = .ok resp :: rest → resp.regionError = some regionErr →
      regionErr.notLeader = none → regionErr.staleEpoch = some se →
      w.staleErr = none → resp.tp = kreq.tp →
      (SendKVReq 1 kreq id w).map Prod.fst = some (some resp, none) ∧
      (SendKVReq 1 kreq id w).map (fun p => p.2.cache)
        = some (staleCacheUpdate w.cache region.verId se.newRegions)) ∧
    (∀ (kreq : KvRequest) (id : RegionVerID) (w : World) (region : Region)
      (resp : KvResponse) (rest : List KvCallOut) (regionErr : RegionError)
      (se : StaleEpochErr) (e : GoError),
      w.ctxErr = none → cacheFind w.cache id = some region →
      w.kvScript = .ok resp :: rest → resp.regionError = some regionErr →
      regionErr.notLeader = none → regionErr.staleEpoch = some se →
      w.staleErr = some e →
      (SendKVReq 1 kreq id w).map Prod.fst = some (none, some e)) ∧
    (∀ (creq : CopRequest) (id : RegionVerID) (w : World) (region : Region)
      (resp : CopResponse) (rest : List CopCallOut) (regionErr : RegionError)
      (se : StaleEpochErr),
      cacheFind w.cache id = some region →
      w.copScript = .ok resp :: rest → resp.regionError = some regionErr →
      regionErr.notLeader = none → regionErr.staleEpoch = some se →
      w.staleErr = none →
      (SendCopReq 1 creq id w).map Prod.fst = some (some resp, none) ∧
      (SendCopReq 1 creq id w).map (fun p => p.2.cache)
        = some (staleCacheUpdate w.cache region.verId se.newRegions)) := by
  refine ⟨?_, ?_, ?_⟩
  · intro kreq id w region resp rest regionErr se hctx hfind hscript hre hnl hse hstale htp
    constructor <;>
    simp [SendKVReq, sendKVStep, GetRegionByVerID, sendKVReqToRegion, clientSendKV,
      onRegionError, reportRegionError, OnRegionStale, logEv,
      hctx, hfind, hscript, hre, hnl, hse, hstale, htp]
  · intro kreq id w region resp rest regionErr se e hctx hfind hscript hre hnl hse hstale
    simp [SendKVReq, sendKVStep, GetRegionByVerID, sendKVReqToRegion, clientSendKV,
      onRegionError, reportRegionError, OnRegionStale, logEv,
      hctx, hfind, hscript, hre, hnl, hse, hstale]
  · intro creq id w region resp rest regionErr se hfind hscript hre hnl hse hstale
    constructor <;>
    simp [SendCopReq, sendCopStep, GetRegionByVerID, sendCopReqToRegion, clientSendCop,
      onRegionError, reportRegionError, OnRegionStale, logEv,
      hfind, hscript, hre, hnl, hse, hstale]

/-- C7, witness: Stale-Epoch with an empty successor list is returned
unresolved and empties the cache entry for both kinds; a failing replacement
is fatal. -/
theorem C7_stale_epoch_handling_witness :
    ((SendKVReq 1 kvReq0 rid0 staleKvWorld).map Prod.fst
        = some (some { tp := 5, regionError := some staleEmptySuccessors }, none) ∧
      (SendKVReq 1 kvReq0 rid0 staleKvWorld).map (fun p => p.2.cache)
        = some (staleCacheUpdate staleKvWorld.cache region0.verId [])) ∧
    (SendKVReq 1 kvReq0 rid0 staleFailWorld).map Prod.fst
      = some (none, some (.staleUpdateFailed 3)) ∧
    ((SendCopReq 1 copReq0 rid0 staleCopWorld).map Prod.fst
        = some (some { data := 9, regionError := some staleEmptySuccessors }, none) ∧
      (SendCopReq 1 copReq0 rid0 staleCopWorld).map (fun p => p.2.cache)
        = some (staleCacheUpdate staleCopWorld.cache region0.verId [])) :=
  ⟨C7_stale_epoch_handling.1 kvReq0 rid0 staleKvWorld region0
     { tp := 5, regionError := some staleEmptySuccessors } [] staleEmptySuccessors
     { newRegions := [] } rfl rfl rfl rfl rfl rfl rfl rfl,
   C7_stale_epoch_handling.2.1 kvReq0 rid0 staleFailWorld region0
     { tp := 5, regionError := some staleEmptySuccessors } [] staleEmptySuccessors
     { newRegions := [] } (.staleUpdateFailed 3) rfl rfl rfl rfl rfl rfl rfl,
   C7_stale_epoch_handling.2.2 copReq0 rid0 staleCopWorld region0
     { data := 9, regionError := some staleEmptySuccessors } [] staleEmptySuccessors
     { newRegions := [] } rfl rfl rfl rfl rfl rfl⟩

/-- C10: in an iteration whose transport call succeeds with no region error
(and matching type tag), the sender mutates no cache state and charges no
backoff: the final world differs from the initial one only by the consumed
transport script entry and the trace of the lookup and the dispatch, and the
dispatched request is the input request with only its routing-context field
overwritten by the resolved region's context. -/
theorem C10_success_iteration_frame (fuel : Nat) (kreq : KvRequest)
    (id : RegionVerID) (w : World) (region : Region) (resp : KvResponse)
    (rest : List KvCallOut) (hctx : w.ctxErr = none)
    (hfind : cacheFind w.cache id = some region)
    (hscript : w.kvScript = .ok resp :: rest) (hre : resp.regionError = none)
    (htp : resp.tp = kreq.tp) :
    SendKVReq (fuel + 1) kreq id w
      = some ((some resp, none),
          { w with kvScript := rest,
                   events := w.events ++
                     [.evLookup id true,
                      .evSendKV region.addr { kreq with context := some region.ctx }] }) := by
  simp [SendKVReq, sendKVStep, GetRegionByVerID, sendKVReqToRegion, clientSendKV, logEv,
        hctx, hfind, hscript, hre, htp]

/-- C10, witness: the frame property at a concrete clean-success world. -/
theorem C10_success_iteration_frame_witness :
    SendKVReq 1 kvReq0 rid0 cleanSuccessWorld
      = some ((some { tp := 5, regionError := none }, none),
          { cleanSuccessWorld with
            kvScript := [],
            events := cleanSuccessWorld.events ++
              [.evLookup rid0 true,
               .evSendKV region0.addr { kvReq0 with context := some region0.ctx }] }) :=
  C10_success_iteration_frame 0 kvReq0 rid0 cleanSuccessWorld region0
    { tp := 5, regionError := none } [] rfl rfl rfl rfl rfl

/-- C4, amended: for sufficient fuel both senders always return (the fuel
bound is a property of the model, covering every possible run over the
finite transport scripts), and the returned pair carries exactly one
outcome: a Response or an error, never both. The original claim's stronger
"Response with no unresolved Region Error" is refuted by
`C4_counterexample`. -/
theorem C4_exactly_one_outcome (fuel : Nat) (kreq : KvRequest) (creq : CopRequest)
    (id : RegionVerID) (w : World)
    (h : w.kvScript.length + w.copScript.length + w.boRPC < fuel) :
    oneOutcome (SendKVReq fuel kreq id w) ∧ oneOutcome (SendCopReq fuel creq id w) :=
  ⟨sendKVReq_total fuel kreq id w (by omega),
   sendCopReq_total fuel creq id w (by omega)⟩

/-- C4, witness: both senders at the base world with fuel 6. -/
theorem C4_exactly_one_outcome_witness :
    oneOutcome (SendKVReq 6 kvReq0 rid0 baseWorld) ∧
    oneOutcome (SendCopReq 6 copReq0 rid0 baseWorld) :=
  C4_exactly_one_outcome 6 kvReq0 copReq0 rid0 baseWorld (by decide)

/-- C8: after a successful transport call, the type tag of the input request
and of any returned Response must match: a final-iteration Response with a
differing tag is replaced by a protocol-mismatch error (first conjunct), and
every Response `SendKVReq` ever returns carries the request's tag (second
conjunct). Coprocessor responses carry no tag, so only the KV path has a
dynamic check. -/
theorem C8_kind_tag_check :
    (∀ (kreq : KvRequest) (id : RegionVerID) (w : World) (region : Region)
      (resp : KvResponse) (rest : List KvCallOut),
      w.ctxErr = none → cacheFind w.cache id = some region →
      w.kvScript = .ok resp :: rest → resp.regionError = none →
      resp.tp ≠ kreq.tp →
      (SendKVReq 1 kreq id w).map Prod.fst
        = some (none, some (.mismatch resp.tp kreq.tp))) ∧
    (∀ (fuel : Nat) (kreq : KvRequest) (id : RegionVerID) (w : World)
      (r : KvResponse) (e : Option GoError) (w2 : World),
      SendKVReq fuel kreq id w = some ((some r, e), w2) → r.tp = kreq.tp) := by
  constructor
  · intro kreq id w region resp rest hctx hfind hscript hre htp
    simp [SendKVReq, sendKVStep, GetRegionByVerID, sendKVReqToRegion, clientSendKV,
      logEv, hctx, hfind, hscript, hre, htp]
  · intro fuel
    exact sendKVReq_tp fuel

/-- C8, witness: a tag-6 response to a tag-5 request yields the mismatch
error, and a returned tag-5 response matches the request tag. -/
theorem C8_kind_tag_check_witness :
    (SendKVReq 1 kvReq0 rid0 mismatchWorld).map Prod.fst
      = some (none, some (.mismatch 6 5)) ∧
    ({ tp := 5, regionError := none } : KvResponse).tp = kvReq0.tp :=
  ⟨C8_kind_tag_check.1 kvReq0 rid0 mismatchWorld region0
     { tp := 6, regionError := none } [] rfl rfl rfl rfl (by decide),
   C8_kind_tag_check.2 1 kvReq0 rid0 cleanSuccessWorld
     { tp := 5, regionError := none } none
     { cleanSuccessWorld with
       kvScript := [],
       events := cleanSuccessWorld.events ++
         [.evLookup rid0 true, .evSendKV 10 { tp := 5, context := some 100 }] } rfl⟩

/-- C9: every loop-body iteration that restarts the retry loop (returns the
`again` signal) appends to the ghost trace, and among the appended events is
a cache mutation (next-peer, leader-update, drop, or replace-with-successors)
or a successful backoff charge — for both request kinds. -/
theorem C9_retry_implies_recovery :
    (∀ (kreq : KvRequest) (id : RegionVerID) (w : World) (req' : KvRequest)
      (w' : World),
      sendKVStep kreq id w = (.again req', w') →
      w'.events.take w.events.length = w.events ∧
      (w'.events.drop w.events.length).any isRecoveryEvent = true) ∧
    (∀ (creq : CopRequest) (id : RegionVerID) (w : World) (req' : CopRequest)
      (w' : World),
      sendCopStep creq id w = (.again req', w') →
      w'.events.take w.events.length = w.events ∧
      (w'.events.drop w.events.length).any isRecoveryEvent = true) := by
  constructor
  · intro kreq id w req' w' h
    obtain ⟨-, l, hl, hrec⟩ := sendKVStep_again_inv _ _ _ _ _ h
    rw [hl]
    exact ⟨List.take_left .., by rw [List.drop_left]; exact hrec⟩
  · intro creq id w req' w' h
    obtain ⟨-, l, hl, hrec⟩ := sendCopStep_again_inv _ _ _ _ _ h
    rw [hl]
    exact ⟨List.take_left .., by rw [List.drop_left]; exact hrec⟩

/-- C9, witness: a retrying iteration of each kind at concrete worlds. -/
theorem C9_retry_implies_recovery_witness :
    (kvRetryStepWorld.events.take kvRetryWorld.events.length = kvRetryWorld.events ∧
     (kvRetryStepWorld.events.drop kvRetryWorld.events.length).any isRecoveryEvent
       = true) ∧
    (copRetryStepWorld.events.take copRetryWorld.events.length = copRetryWorld.events ∧
     (copRetryStepWorld.events.drop copRetryWorld.events.length).any isRecoveryEvent
       = true) :=
  ⟨C9_retry_implies_recovery.1 kvReq0 rid0 kvRetryWorld
     { tp := 5, context := some 100 } kvRetryStepWorld rfl,
   C9_retry_implies_recovery.2 copReq0 rid0 copRetryWorld
     { tp := 7, context := some 100 } copRetryStepWorld rfl⟩

end RegionRequest
